import Mathlib

/-!
# OwrMediaSession (transport/owr_media_session.c)

A shallow embedding of the media session state container: the private fields
of one `OwrMediaSession`, the GObject reference counts of the objects it
touches, the closures of its two notification slots, and the trace of
lock / registry / callback events its functions produce.

Modelling conventions
* A non-NULL pointer is a `Ptr` (an address); a nullable C pointer is an
  `Option Ptr`, `none` being `NULL`.
* `World` is the memory the functions of the file read and write for one media
  session: its `priv` struct, the reference count and the `payload-type`
  property of every object, the GType predicates behind `OWR_IS_MEDIA_SESSION`
  and `OWR_IS_MEDIA_SOURCE`, the state of every `GClosure`, the state of the
  parent `OwrSession` instance (abstract, type `σ`), and the event trace.
* GLib calls are modelled by their documented effect: `g_object_ref` /
  `g_object_unref` on `NULL` fail a `g_return_if_fail` and do nothing, a
  reference count of zero stays zero (finalisation is not modelled);
  `g_closure_invoke` runs the callback unless the closure is invalid. A
  callback is an opaque observer: it is recorded in the trace with the private
  state it sees and does not itself change the session.
* A deferred task handed to `_owr_schedule_with_hash_table` is returned to the
  caller of the public entry point as a `Scheduled` value and run by `run_task`.
-/

namespace OwrMediaSession

/-- Address of a live object (a non-NULL pointer). -/
abbrev Ptr := Nat

/-- The fields of `struct _OwrMediaSessionPrivate`; `rw_lock` is represented by
the lock events of the trace. -/
structure OwrMediaSessionPrivate where
  rtcp_mux : Bool
  incoming_srtp_key : Option String
  outgoing_srtp_key : Option String
  send_ssrc : Nat
  cname : Option String
  send_payload : Option Ptr
  send_source : Option Ptr
  receive_payloads : List Ptr
  on_send_payload : Option Ptr
  on_send_source : Option Ptr
deriving DecidableEq

/-- Observable events: operations on `priv->rw_lock`, the registry insertion,
the duplicate warning, and a callback run by `g_closure_invoke` (with the
session passed as argument and the private state the callback sees). -/
inductive Event where
  | writer_lock
  | writer_unlock
  | reader_lock
  | reader_unlock
  | ptr_array_add (payload : Ptr)
  | warning
  | closure_invoke (closure : Ptr) (media_session : Ptr) (seen : OwrMediaSessionPrivate)
deriving DecidableEq

/-- Memory of one media session and of the objects it refers to. -/
structure World (σ : Type) where
  priv : OwrMediaSessionPrivate
  ref_count : Ptr → Nat
  payload_type : Ptr → Nat
  is_media_session : Ptr → Bool
  is_media_source : Ptr → Bool
  closure_ref_count : Ptr → Nat
  closure_is_invalid : Ptr → Bool
  parent : σ
  trace : List Event

/-- The argument bag of a deferred call: a `GHashTable` with string keys. -/
abbrev GHashTable := List (String × Ptr)

/-- The three task functions that the file schedules. -/
inductive GSourceFunc where
  | add_receive_payload
  | set_send_payload
  | set_send_source
deriving DecidableEq

/-- A call submitted with `_owr_schedule_with_hash_table (func, args)`. -/
structure Scheduled where
  func : GSourceFunc
  args : GHashTable
deriving DecidableEq

variable {σ : Type}

/-! ## GLib primitives -/

def g_hash_table_insert (t : GHashTable) (key : String) (value : Ptr) : GHashTable :=
  (key, value) :: t.filter (fun kv => kv.1 != key)

def g_hash_table_lookup (t : GHashTable) (key : String) : Option Ptr :=
  (t.find? (fun kv => kv.1 == key)).map Prod.snd

def g_object_ref (w : World σ) (object : Option Ptr) : World σ :=
  match object with
  | none => w
  | some a => { w with ref_count := Function.update w.ref_count a (w.ref_count a + 1) }

def g_object_unref (w : World σ) (object : Option Ptr) : World σ :=
  match object with
  | none => w
  | some a => { w with ref_count := Function.update w.ref_count a (w.ref_count a - 1) }

def emit (w : World σ) (e : Event) : World σ :=
  { w with trace := w.trace ++ [e] }

def g_ptr_array_add (w : World σ) (data : Ptr) : World σ :=
  emit { w with priv := { w.priv with receive_payloads := w.priv.receive_payloads ++ [data] } }
    (Event.ptr_array_add data)

def g_closure_invoke (w : World σ) (closure : Ptr) (media_session : Ptr) : World σ :=
  if w.closure_is_invalid closure then w
  else emit w (Event.closure_invoke closure media_session w.priv)

def g_closure_invalidate (w : World σ) (closure : Ptr) : World σ :=
  { w with closure_is_invalid := Function.update w.closure_is_invalid closure true }

def g_closure_unref (w : World σ) (closure : Ptr) : World σ :=
  { w with closure_ref_count :=
      Function.update w.closure_ref_count closure (w.closure_ref_count closure - 1) }

def OWR_IS_MEDIA_SESSION (w : World σ) (p : Option Ptr) : Bool :=
  match p with
  | none => false
  | some a => w.is_media_session a

def OWR_IS_MEDIA_SOURCE (w : World σ) (p : Option Ptr) : Bool :=
  match p with
  | none => false
  | some a => w.is_media_source a

/-! ## owr_media_session.c -/

/-- The private state written by `owr_media_session_init` (lines 268-284). -/
def owr_media_session_init : OwrMediaSessionPrivate :=
  { rtcp_mux := false
    incoming_srtp_key := none
    outgoing_srtp_key := none
    send_ssrc := 0
    cname := none
    send_payload := none
    send_source := none
    receive_payloads := []
    on_send_payload := none
    on_send_source := none }

/-- Lines 307-321. -/
def owr_media_session_add_receive_payload (w : World σ) (media_session payload : Option Ptr) :
    World σ × Option Scheduled :=
  match media_session with
  | none => (w, none)
  | some s =>
    match payload with
    | none => (w, none)
    | some p =>
      let args := g_hash_table_insert (g_hash_table_insert [] "media_session" s) "payload" p
      let w := g_object_ref w (some s)
      let w := g_object_ref w (some p)
      (w, some ⟨GSourceFunc.add_receive_payload, args⟩)

/-- Lines 331-345. -/
def owr_media_session_set_send_payload (w : World σ) (media_session payload : Option Ptr) :
    World σ × Option Scheduled :=
  match media_session with
  | none => (w, none)
  | some s =>
    match payload with
    | none => (w, none)
    | some p =>
      let args := g_hash_table_insert (g_hash_table_insert [] "media_session" s) "payload" p
      let w := g_object_ref w (some s)
      let w := g_object_ref w (some p)
      (w, some ⟨GSourceFunc.set_send_payload, args⟩)

/-- Lines 355-369. -/
def owr_media_session_set_send_source (w : World σ) (media_session source : Option Ptr) :
    World σ × Option Scheduled :=
  if !OWR_IS_MEDIA_SESSION w media_session then (w, none)
  else if !OWR_IS_MEDIA_SOURCE w source then (w, none)
  else
    match media_session, source with
    | some s, some src =>
      let args := g_hash_table_insert (g_hash_table_insert [] "media_session" s) "source" src
      let w := g_object_ref w (some s)
      let w := g_object_ref w (some src)
      (w, some ⟨GSourceFunc.set_send_source, args⟩)
    | _, _ => (w, none)

/-- The duplicate scan of `add_receive_payload` (lines 397-404): the value of
`payload_found` when the loop ends; `get_payload_type p` is the value read by
`g_object_get (p, "payload-type", &plt, NULL)`. -/
def add_receive_payload_scan (get_payload_type : Ptr → Nat) (payload : Ptr)
    (payload_type : Nat) : List Ptr → Bool
  | [] => false
  | p :: rest =>
    if p = payload ∨ get_payload_type p = payload_type then true
    else add_receive_payload_scan get_payload_type payload payload_type rest

/-- Lines 375-417. The registry array is never NULL after init, so the check
of line 395 always passes. -/
def add_receive_payload (w : World σ) (args : Option GHashTable) : World σ :=
  match args with
  | none => w
  | some args =>
    match g_hash_table_lookup args "media_session" with
    | none => w
    | some media_session =>
      match g_hash_table_lookup args "payload" with
      | none => w
      | some payload =>
        let payload_type := w.payload_type payload
        let w := emit w Event.writer_lock
        let payloads := w.priv.receive_payloads
        let payload_found :=
          add_receive_payload_scan w.payload_type payload payload_type payloads
        let w := emit w Event.writer_unlock
        let w :=
          if !payload_found then g_object_ref (g_ptr_array_add w payload) (some payload)
          else emit w Event.warning
        let w := g_object_unref w (some payload)
        let w := g_object_unref w (some media_session)
        w

/-- Lines 419-450. -/
def set_send_payload (w : World σ) (args : Option GHashTable) : World σ :=
  match args with
  | none => w
  | some args =>
    match g_hash_table_lookup args "media_session" with
    | none => w
    | some media_session =>
      match g_hash_table_lookup args "payload" with
      | none => w
      | some payload =>
        let w :=
          match w.priv.send_payload with
          | some old => g_object_unref w (some old)
          | none => w
        let w := { w with priv := { w.priv with send_payload := some payload } }
        let w :=
          match w.priv.on_send_payload with
          | some closure => g_closure_invoke w closure media_session
          | none => w
        let w := g_object_unref w (some media_session)
        w

/-- Lines 452-485. -/
def set_send_source (w : World σ) (args : Option GHashTable) : World σ :=
  match args with
  | none => w
  | some args =>
    let media_session := g_hash_table_lookup args "media_session"
    let source := g_hash_table_lookup args "source"
    if !OWR_IS_MEDIA_SESSION w media_session then w
    else if !OWR_IS_MEDIA_SOURCE w source then w
    else
      match media_session, source with
      | some media_session, some source =>
        let w :=
          match w.priv.send_source with
          | some old => g_object_unref w (some old)
          | none => w
        let w := { w with priv := { w.priv with send_source := some source } }
        let w :=
          match w.priv.on_send_source with
          | some closure => g_closure_invoke w closure media_session
          | none => w
        let w := g_object_unref w (some source)
        let w := g_object_unref w (some media_session)
        w
      | _, _ => w

/-- Run a scheduled call on the designated thread. -/
def run_task (w : World σ) (t : Scheduled) : World σ :=
  match t.func with
  | GSourceFunc.add_receive_payload => add_receive_payload w (some t.args)
  | GSourceFunc.set_send_payload => set_send_payload w (some t.args)
  | GSourceFunc.set_send_source => set_send_source w (some t.args)

/-- A public call followed by the deferred task it scheduled, if any. -/
def run_scheduled (r : World σ × Option Scheduled) : World σ :=
  match r.2 with
  | some t => run_task r.1 t
  | none => r.1

/-- The loop of `_owr_media_session_get_receive_payload` (lines 500-505): the
locals `payload` and `pt` when the loop ends. -/
def get_receive_payload_loop (get_payload_type : Ptr → Nat) (payload_type : Nat) :
    List Ptr → Option Ptr × Nat → Option Ptr × Nat
  | [], locals => locals
  | p :: rest, _ =>
    if get_payload_type p = payload_type then (some p, get_payload_type p)
    else get_receive_payload_loop get_payload_type payload_type rest (some p, get_payload_type p)

/-- Lines 490-512. The session pointer is dereferenced on entry, so it is
non-NULL here; the registry array is never NULL after init. -/
def _owr_media_session_get_receive_payload (w : World σ) (payload_type : Nat) :
    Option Ptr × World σ :=
  let receive_payloads := w.priv.receive_payloads
  let w := emit w Event.reader_lock
  let locals := get_receive_payload_loop w.payload_type payload_type receive_payloads (none, 0)
  let w := g_object_ref w locals.1
  let w := emit w Event.reader_unlock
  if locals.2 = payload_type then (locals.1, w) else (none, w)

/-- Lines 514-519. -/
def _owr_media_session_get_send_payload (w : World σ) : Option Ptr :=
  w.priv.send_payload

/-- Lines 521-526. -/
def _owr_media_session_get_send_source (w : World σ) (media_session : Option Ptr) :
    Option Ptr :=
  if !OWR_IS_MEDIA_SESSION w media_session then none else w.priv.send_source

/-- Lines 528-535; `g_closure_set_marshal` only records the marshaller. -/
def _owr_media_session_set_on_send_payload (w : World σ)
    (media_session on_send_payload : Option Ptr) : World σ :=
  match media_session with
  | none => w
  | some _ =>
    match on_send_payload with
    | none => w
    | some c => { w with priv := { w.priv with on_send_payload := some c } }

/-- Lines 537-544. -/
def _owr_media_session_set_on_send_source (w : World σ)
    (media_session on_send_source : Option Ptr) : World σ :=
  if !OWR_IS_MEDIA_SESSION w media_session then w
  else
    match on_send_source with
    | none => w
    | some c => { w with priv := { w.priv with on_send_source := some c } }

/-- Lines 546-561. `_owr_session_clear_closures` belongs to the parent class
`OwrSession` and acts on the parent instance state; it is a parameter. -/
def _owr_media_session_clear_closures (_owr_session_clear_closures : σ → σ) (w : World σ) :
    World σ :=
  let w :=
    match w.priv.on_send_payload with
    | some c =>
      let w := g_closure_invalidate w c
      let w := g_closure_unref w c
      { w with priv := { w.priv with on_send_payload := none } }
    | none => w
  let w :=
    match w.priv.on_send_source with
    | some c =>
      let w := g_closure_invalidate w c
      let w := g_closure_unref w c
      { w with priv := { w.priv with on_send_source := none } }
    | none => w
  { w with parent := _owr_session_clear_closures w.parent }

/-- The read of a string property by `g_object_get (media_session, keyname, ...)`
for the two key properties (lines 142-148). -/
def owr_media_session_get_property (w : World σ) (keyname : String) : Option String :=
  if keyname = "incoming-srtp-key" then w.priv.incoming_srtp_key
  else w.priv.outgoing_srtp_key

/-- Lines 563-580. A `GstBuffer` is the list of its bytes; `g_base64_decode` is
a parameter. -/
def _owr_media_session_get_srtp_key_buffer (g_base64_decode : String → List Nat)
    (w : World σ) (media_session : Option Ptr) (keyname : Option String) :
    Option (List Nat) :=
  if !OWR_IS_MEDIA_SESSION w media_session then none
  else
    match keyname with
    | none => none
    | some keyname =>
      if !(keyname = "incoming-srtp-key" ∨ keyname = "outgoing-srtp-key") then none
      else
        match owr_media_session_get_property w keyname with
        | none => some [0]
        | some base64_key =>
          if base64_key = "" then some [0]
          else some (g_base64_decode base64_key)

/-! ## Operation sequences, trace observers and sample memories -/

/-- A finite sequence of `addReceivePayload` operations on one session, each
public call followed by its deferred task. -/
def add_sequence (w : World σ) (media_session : Ptr) (payloads : List (Option Ptr)) : World σ :=
  payloads.foldl
    (fun w p => run_scheduled (owr_media_session_add_receive_payload w (some media_session) p)) w

/-- A send-side mutation requested by a caller. -/
inductive SendOp where
  | setSendPayload (payload : Ptr)
  | setSendSource (source : Ptr)
deriving DecidableEq

/-- One send-side mutation: the public call followed by its deferred task. -/
def run_send_op (w : World σ) (media_session : Ptr) : SendOp → World σ
  | SendOp.setSendPayload p =>
    run_scheduled (owr_media_session_set_send_payload w (some media_session) (some p))
  | SendOp.setSendSource src =>
    run_scheduled (owr_media_session_set_send_source w (some media_session) (some src))

def run_send_ops (w : World σ) (media_session : Ptr) (ops : List SendOp) : World σ :=
  ops.foldl (fun w op => run_send_op w media_session op) w

/-- The events a mutation task appends for a notification slot: one callback
run when the slot holds a closure that is not invalid, nothing otherwise. -/
def slot_events (w : World σ) (slot : Option Ptr) (media_session : Ptr)
    (seen : OwrMediaSessionPrivate) : List Event :=
  match slot with
  | none => []
  | some c => if w.closure_is_invalid c then [] else [Event.closure_invoke c media_session seen]

/-- Number of callback runs in a trace. -/
def callback_count : List Event → Nat
  | [] => 0
  | Event.closure_invoke _ _ _ :: rest => callback_count rest + 1
  | _ :: rest => callback_count rest

/-- Number of runs of the callback of one given closure in a trace. -/
def invocations_of (closure : Ptr) : List Event → Nat
  | [] => 0
  | Event.closure_invoke c _ _ :: rest =>
    (if c = closure then 1 else 0) + invocations_of closure rest
  | _ :: rest => invocations_of closure rest

/-- Whether every registry insertion of a trace happens while the writer lock
is held; the first argument is whether the lock is held when the trace starts. -/
def inserts_under_writer_lock : Bool → List Event → Bool
  | _, [] => true
  | _, Event.writer_lock :: rest => inserts_under_writer_lock true rest
  | _, Event.writer_unlock :: rest => inserts_under_writer_lock false rest
  | held, Event.ptr_array_add _ :: rest => held && inserts_under_writer_lock held rest
  | held, _ :: rest => inserts_under_writer_lock held rest

/-- A concrete memory holding a freshly initialised session: the session object
is at address 1, payloads 5 and 6 both have payload type 96 (any other object
has its address as payload type), 7 and 8 are media sources, every reference
count is 1 and no closure is invalid. -/
def sample_world : World Unit :=
  { priv := owr_media_session_init
    ref_count := fun _ => 1
    payload_type := fun p => if p = 5 ∨ p = 6 then 96 else p
    is_media_session := fun p => decide (p = 1)
    is_media_source := fun p => decide (p = 7 ∨ p = 8)
    closure_ref_count := fun _ => 1
    closure_is_invalid := fun _ => false
    parent := ()
    trace := [] }

/-- The sample memory with payload 5 registered as a receive payload. -/
def sample_world_with_payload : World Unit :=
  { sample_world with priv := { owr_media_session_init with receive_payloads := [5] } }

/-- The sample memory with closure 9 in the send-payload slot and closure 10
in the send-source slot. -/
def sample_world_with_slots : World Unit :=
  { sample_world with
    priv := { owr_media_session_init with on_send_payload := some 9, on_send_source := some 10 } }

/-- What a send-side mutation keeps when both slots are empty: the slots stay
empty, the trace does not grow, and the type predicates are untouched. -/
def quiet_as (w0 w : World σ) : Prop :=
  w.priv.on_send_payload = none ∧ w.priv.on_send_source = none ∧ w.trace = w0.trace ∧
    w.is_media_session = w0.is_media_session ∧ w.is_media_source = w0.is_media_source

/-! ## Properties -/

theorem args_lookup_media_session (s p : Ptr) :
    g_hash_table_lookup (g_hash_table_insert (g_hash_table_insert [] "media_session" s) "payload" p)
      "media_session" = some s := by
  simp [g_hash_table_lookup, g_hash_table_insert]

theorem args_lookup_payload (s p : Ptr) :
    g_hash_table_lookup (g_hash_table_insert (g_hash_table_insert [] "media_session" s) "payload" p)
      "payload" = some p := by
  simp [g_hash_table_lookup, g_hash_table_insert]

theorem args_lookup_source_session (s p : Ptr) :
    g_hash_table_lookup (g_hash_table_insert (g_hash_table_insert [] "media_session" s) "source" p)
      "media_session" = some s := by
  simp [g_hash_table_lookup, g_hash_table_insert]

theorem args_lookup_source (s p : Ptr) :
    g_hash_table_lookup (g_hash_table_insert (g_hash_table_insert [] "media_session" s) "source" p)
      "source" = some p := by
  simp [g_hash_table_lookup, g_hash_table_insert]

theorem scan_eq_true_iff (f : Ptr → Nat) (p : Ptr) (t : Nat) (l : List Ptr) :
    add_receive_payload_scan f p t l = true ↔ ∃ q ∈ l, q = p ∨ f q = t := by
  induction l with
  | nil => simp [add_receive_payload_scan]
  | cons q rest ih =>
    by_cases hq : q = p ∨ f q = t
    · simp [add_receive_payload_scan, hq]
    · simp [add_receive_payload_scan, hq, ih]

/-- Taking a reference on the session and on `p` and dropping both again
restores every reference count. -/
theorem ref_unref_cancel (rc : Ptr → Nat) (s p : Ptr) :
    Function.update
      (Function.update
        (Function.update (Function.update rc s (rc s + 1)) p
          (Function.update rc s (rc s + 1) p + 1)) p
        (Function.update (Function.update rc s (rc s + 1)) p
          (Function.update rc s (rc s + 1) p + 1) p - 1)) s
      (Function.update
        (Function.update (Function.update rc s (rc s + 1)) p
          (Function.update rc s (rc s + 1) p + 1)) p
        (Function.update (Function.update rc s (rc s + 1)) p
          (Function.update rc s (rc s + 1) p + 1) p - 1) s - 1) = rc := by
  funext x
  by_cases hsp : s = p
  · subst hsp
    by_cases hx : x = s
    · subst hx; simp
    · simp [Function.update, hx]
  · by_cases hx : x = s
    · subst hx; simp [Function.update, hsp]
    · by_cases hxp : x = p
      · subst hxp; simp [Function.update, hsp, hx]
      · simp [Function.update, hx, hxp]

/-- The deferred add when the scan finds a duplicate: only the trace grows. -/
theorem add_run_found (w : World σ) (s p : Ptr)
    (h : add_receive_payload_scan w.payload_type p (w.payload_type p) w.priv.receive_payloads
      = true) :
    run_scheduled (owr_media_session_add_receive_payload w (some s) (some p)) =
      { w with trace := w.trace ++ [Event.writer_lock, Event.writer_unlock, Event.warning] } := by
  simp only [run_scheduled, owr_media_session_add_receive_payload, run_task, add_receive_payload,
    args_lookup_media_session, args_lookup_payload]
  simp [h, g_object_ref, g_object_unref, emit, ref_unref_cancel]

/-- The deferred add when the scan finds no duplicate: `p` is appended and
keeps one more reference. -/
theorem add_run_not_found (w : World σ) (s p : Ptr)
    (h : add_receive_payload_scan w.payload_type p (w.payload_type p) w.priv.receive_payloads
      = false) :
    run_scheduled (owr_media_session_add_receive_payload w (some s) (some p)) =
      { w with
        priv := { w.priv with receive_payloads := w.priv.receive_payloads ++ [p] }
        ref_count := Function.update w.ref_count p (w.ref_count p + 1)
        trace := w.trace ++ [Event.writer_lock, Event.writer_unlock, Event.ptr_array_add p] } := by
  simp only [run_scheduled, owr_media_session_add_receive_payload, run_task, add_receive_payload,
    args_lookup_media_session, args_lookup_payload]
  simp only [h, g_object_ref, g_object_unref, emit, g_ptr_array_add]
  simp only [Bool.not_false, if_true, List.append_assoc, List.singleton_append]
  congr 1
  funext x
  by_cases hsp : s = p
  · subst hsp
    by_cases hx : x = s
    · subst hx; simp
    · simp [Function.update, hx]
  · by_cases hx : x = s
    · subst hx; simp [Function.update, hsp]
    · by_cases hxp : x = p
      · subst hxp; simp [Function.update, hsp, hx]
      · simp [Function.update, hx, hxp]

theorem add_step_payload_type (w : World σ) (s : Ptr) (p : Option Ptr) :
    (run_scheduled (owr_media_session_add_receive_payload w (some s) p)).payload_type
      = w.payload_type := by
  cases p with
  | none => rfl
  | some p =>
    cases h : add_receive_payload_scan w.payload_type p (w.payload_type p) w.priv.receive_payloads
    · rw [add_run_not_found w s p h]
    · rw [add_run_found w s p h]

theorem add_step_unique (w : World σ) (s : Ptr) (p : Option Ptr)
    (hw : (w.priv.receive_payloads.map w.payload_type).Nodup) :
    ((run_scheduled (owr_media_session_add_receive_payload w (some s) p)).priv.receive_payloads.map
      w.payload_type).Nodup := by
  cases p with
  | none => exact hw
  | some p =>
    cases h : add_receive_payload_scan w.payload_type p (w.payload_type p) w.priv.receive_payloads
    · rw [add_run_not_found w s p h]
      have hnot : ¬ ∃ q ∈ w.priv.receive_payloads, q = p ∨ w.payload_type q = w.payload_type p := by
        rw [← scan_eq_true_iff, h]; simp
      simp only [List.map_append, List.map_cons, List.map_nil]
      rw [List.nodup_append]
      refine ⟨hw, List.nodup_singleton _, ?_⟩
      intro t ht ht'
      rw [List.mem_singleton] at ht'
      rw [List.mem_map] at ht
      obtain ⟨q, hq, hqt⟩ := ht
      exact hnot ⟨q, hq, Or.inr (hqt.trans ht')⟩
    · rw [add_run_found w s p h]
      exact hw

theorem add_sequence_unique (w : World σ) (s : Ptr) (ps : List (Option Ptr))
    (hw : (w.priv.receive_payloads.map w.payload_type).Nodup) :
    ((add_sequence w s ps).priv.receive_payloads.map (add_sequence w s ps).payload_type).Nodup := by
  induction ps generalizing w with
  | nil => exact hw
  | cons p rest ih =>
    simp only [add_sequence, List.foldl_cons]
    apply ih
    rw [add_step_payload_type]
    exact add_step_unique w s p hw

/-- C1. Starting from a freshly initialised session (empty registry), after
every finite sequence of addReceivePayload operations (each public call
followed by its deferred task), no two registry entries have the same payload
type and no two entries are the same payload object. -/
theorem receive_payloads_unique (w : World σ) (media_session : Ptr)
    (payloads : List (Option Ptr)) :
    ((add_sequence { w with priv := owr_media_session_init } media_session
        payloads).priv.receive_payloads.map
      (add_sequence { w with priv := owr_media_session_init } media_session
        payloads).payload_type).Nodup ∧
    (add_sequence { w with priv := owr_media_session_init } media_session
        payloads).priv.receive_payloads.Nodup := by
  have h := add_sequence_unique { w with priv := owr_media_session_init } media_session payloads
    (by simp [owr_media_session_init])
  exact ⟨h, List.Nodup.of_map _ h⟩

/-- C2. When the registry already holds an entry that is `p` itself or has the
payload type of `p`, the public add followed by its deferred task leaves the
whole private state (registry content and order, send payload, send source,
both notification slots) and every reference count, those of the session and
of `p` included, as they were before the public call. -/
theorem rejected_add_changes_nothing (w : World σ) (media_session p : Ptr)
    (h : ∃ q ∈ w.priv.receive_payloads, q = p ∨ w.payload_type q = w.payload_type p) :
    (run_scheduled
      (owr_media_session_add_receive_payload w (some media_session) (some p))).priv = w.priv ∧
    (run_scheduled
      (owr_media_session_add_receive_payload w (some media_session) (some p))).ref_count
        = w.ref_count := by
  rw [add_run_found w media_session p ((scan_eq_true_iff _ _ _ _).mpr h)]
  exact ⟨rfl, rfl⟩

/-- Witness for C2: payload 6 is rejected because payload 5 has its type. -/
theorem rejected_add_changes_nothing_witness :
    (∃ q ∈ sample_world_with_payload.priv.receive_payloads,
      q = 6 ∨ sample_world_with_payload.payload_type q = sample_world_with_payload.payload_type 6) ∧
    (run_scheduled
      (owr_media_session_add_receive_payload sample_world_with_payload (some 1) (some 6))).priv
        = sample_world_with_payload.priv ∧
    (run_scheduled
      (owr_media_session_add_receive_payload sample_world_with_payload (some 1) (some 6))).ref_count
        = sample_world_with_payload.ref_count :=
  ⟨⟨5, by decide, by decide⟩,
    rejected_add_changes_nothing sample_world_with_payload 1 6 ⟨5, by decide, by decide⟩⟩

theorem loop_of_find_some (f : Ptr → Nat) (t : Nat) (l : List Ptr) (acc : Option Ptr × Nat)
    (p : Ptr) (h : l.find? (fun q => decide (f q = t)) = some p) :
    get_receive_payload_loop f t l acc = (some p, t) := by
  induction l generalizing acc with
  | nil => simp at h
  | cons q rest ih =>
    by_cases hq : f q = t
    · simp [List.find?, hq] at h
      subst h
      simp [get_receive_payload_loop, hq]
    · simp [List.find?, hq] at h
      simp only [get_receive_payload_loop, hq, if_false]
      exact ih _ h

theorem loop_of_find_none (f : Ptr → Nat) (t : Nat) (l : List Ptr) (acc : Option Ptr × Nat)
    (h : l.find? (fun q => decide (f q = t)) = none) (hl : l ≠ []) :
    (get_receive_payload_loop f t l acc).2 ≠ t := by
  induction l generalizing acc with
  | nil => exact absurd rfl hl
  | cons q rest ih =>
    have hq : f q ≠ t := by
      intro hq
      simp [List.find?, hq] at h
    have hrest : rest.find? (fun q => decide (f q = t)) = none := by
      simpa [List.find?, hq] using h
    simp only [get_receive_payload_loop, hq, if_false]
    cases rest with
    | nil => simpa [get_receive_payload_loop] using hq
    | cons r rest2 => exact ih _ hrest (by simp)

/-- The value returned by the lookup is the first registry entry, in insertion
order, whose payload type is the requested one. -/
theorem lookup_eq_find (w : World σ) (t : Nat) :
    (_owr_media_session_get_receive_payload w t).1 =
      w.priv.receive_payloads.find? (fun q => decide (w.payload_type q = t)) := by
  unfold _owr_media_session_get_receive_payload
  simp only [emit]
  cases hf : w.priv.receive_payloads.find? (fun q => decide (w.payload_type q = t)) with
  | some p =>
    rw [loop_of_find_some w.payload_type t _ (none, 0) p hf]
    simp
  | none =>
    by_cases hl : w.priv.receive_payloads = []
    · rw [hl]
      simp only [get_receive_payload_loop]
      split <;> rfl
    · have := loop_of_find_none w.payload_type t _ (none, 0) hf hl
      simp [this]

theorem lookup_priv (w : World σ) (t : Nat) :
    (_owr_media_session_get_receive_payload w t).2.priv = w.priv := by
  unfold _owr_media_session_get_receive_payload
  simp only [emit, g_object_ref]
  split <;> split <;> rfl

theorem set_send_payload_run (w : World σ) (s p : Ptr) :
    run_scheduled (owr_media_session_set_send_payload w (some s) (some p)) =
      { w with
        priv := { w.priv with send_payload := some p }
        ref_count := fun x =>
          (w.ref_count x + (if x = p then 1 else 0)) -
            (if w.priv.send_payload = some x then 1 else 0)
        trace := w.trace ++
          slot_events w w.priv.on_send_payload s { w.priv with send_payload := some p } } := by
  simp only [run_scheduled, owr_media_session_set_send_payload, run_task, set_send_payload,
    args_lookup_media_session, args_lookup_payload]
  have hrc : ∀ (old : Option Ptr),
      (g_object_unref (match old with
          | some o => g_object_unref (g_object_ref (g_object_ref w (some s)) (some p)) (some o)
          | none => g_object_ref (g_object_ref w (some s)) (some p)) (some s)).ref_count =
        fun x => (w.ref_count x + (if x = p then 1 else 0)) - (if old = some x then 1 else 0) := by
    intro old
    funext x
    cases old with
    | none =>
      simp only [g_object_ref, g_object_unref, Function.update_apply]
      split_ifs <;> subst_vars <;> simp_all
    | some o =>
      simp only [g_object_ref, g_object_unref, Function.update_apply, Option.some.injEq]
      split_ifs <;> subst_vars <;> simp_all
  have h1 := hrc w.priv.send_payload
  cases hold : w.priv.send_payload <;> cases hslot : w.priv.on_send_payload <;>
    simp only [hold, hslot, g_object_ref, g_object_unref, g_closure_invoke, emit, slot_events,
      List.append_nil] at h1 ⊢
  · rw [h1]
  · split <;> simp [h1]
  · rw [h1]
  · split <;> simp [h1]

theorem set_send_source_run (w : World σ) (s src : Ptr) (hs : w.is_media_session s = true)
    (hsrc : w.is_media_source src = true) :
    run_scheduled (owr_media_session_set_send_source w (some s) (some src)) =
      { w with
        priv := { w.priv with send_source := some src }
        ref_count := fun x => w.ref_count x - (if w.priv.send_source = some x then 1 else 0)
        trace := w.trace ++
          slot_events w w.priv.on_send_source s { w.priv with send_source := some src } } := by
  simp only [run_scheduled, owr_media_session_set_send_source, run_task, set_send_source,
    args_lookup_source_session, args_lookup_source, OWR_IS_MEDIA_SESSION, OWR_IS_MEDIA_SOURCE,
    hs, hsrc, g_object_ref, Bool.not_true, Bool.false_eq_true, if_false]
  have hrc : ∀ (old : Option Ptr),
      (g_object_unref (g_object_unref (match old with
          | some o => g_object_unref (g_object_ref (g_object_ref w (some s)) (some src)) (some o)
          | none => g_object_ref (g_object_ref w (some s)) (some src)) (some src))
            (some s)).ref_count =
        fun x => w.ref_count x - (if old = some x then 1 else 0) := by
    intro old
    funext x
    cases old with
    | none =>
      simp only [g_object_ref, g_object_unref, Function.update_apply]
      split_ifs <;> subst_vars <;> simp_all
    | some o =>
      simp only [g_object_ref, g_object_unref, Function.update_apply, Option.some.injEq]
      split_ifs <;> subst_vars <;> simp_all
  have h1 := hrc w.priv.send_source
  cases hold : w.priv.send_source <;> cases hslot : w.priv.on_send_source <;>
    simp only [hold, hslot, g_object_ref, g_object_unref, g_closure_invoke, emit, slot_events,
      List.append_nil] at h1 ⊢
  · rw [h1]
  · split <;> simp [h1]
  · rw [h1]
  · split <;> simp [h1]

/-- C3 (as stated, refuted). With payload 5 of type 96 registered, the add of
the distinct payload 6, also of type 96, is rejected, and the lookup of type 96
afterwards returns payload 5, not the payload that was added. -/
theorem lookup_after_add_counterexample :
    sample_world_with_payload.payload_type 6 = 96 ∧
    (_owr_media_session_get_receive_payload
      (run_scheduled (owr_media_session_add_receive_payload sample_world_with_payload
        (some 1) (some 6))) 96).1 = some 5 ∧
    (_owr_media_session_get_receive_payload
      (run_scheduled (owr_media_session_add_receive_payload sample_world_with_payload
        (some 1) (some 6))) 96).1 ≠ some 6 := by
  decide

/-- C3 (amended). The lookup on an empty registry returns NULL for every `t`;
and when no registry entry other than `p` has the payload type of `p`, after
the add of `p` has run the lookup of that payload type returns `p` itself. -/
theorem lookup_after_add (w : World σ) (media_session p : Ptr) (t : Nat)
    (h : ∀ q ∈ w.priv.receive_payloads, w.payload_type q = w.payload_type p → q = p) :
    (_owr_media_session_get_receive_payload
      { w with priv := { w.priv with receive_payloads := [] } } t).1 = none ∧
    (_owr_media_session_get_receive_payload
      (run_scheduled (owr_media_session_add_receive_payload w (some media_session) (some p)))
      (w.payload_type p)).1 = some p := by
  constructor
  · rw [lookup_eq_find]; rfl
  · rw [lookup_eq_find, add_step_payload_type]
    cases hscan :
      add_receive_payload_scan w.payload_type p (w.payload_type p) w.priv.receive_payloads
    · rw [add_run_not_found w media_session p hscan]
      have hnot : ¬ ∃ q ∈ w.priv.receive_payloads, q = p ∨ w.payload_type q = w.payload_type p := by
        rw [← scan_eq_true_iff, hscan]; simp
      have hnone : w.priv.receive_payloads.find?
          (fun q => decide (w.payload_type q = w.payload_type p)) = none := by
        rw [List.find?_eq_none]
        intro q hq hqt
        exact hnot ⟨q, hq, Or.inr (by simpa using hqt)⟩
      simp [List.find?_append, hnone, List.find?]
    · rw [add_run_found w media_session p hscan]
      obtain ⟨q, hq, hqp⟩ := (scan_eq_true_iff _ _ _ _).mp hscan
      have hqeq : q = p := by
        rcases hqp with hqp | hqp
        · exact hqp
        · exact h q hq hqp
      subst hqeq
      cases hfind : w.priv.receive_payloads.find?
          (fun r => decide (w.payload_type r = w.payload_type q)) with
      | none =>
        rw [List.find?_eq_none] at hfind
        exact absurd (by simp) (hfind q hq)
      | some r =>
        have hr := List.find?_some hfind
        have hmem := List.mem_of_find?_eq_some hfind
        rw [h r hmem (by simpa using hr)]

/-- Witness for C3: payload 5 added to a fresh session is found again. -/
theorem lookup_after_add_witness :
    (∀ q ∈ sample_world.priv.receive_payloads,
      sample_world.payload_type q = sample_world.payload_type 5 → q = 5) ∧
    (_owr_media_session_get_receive_payload
      { sample_world with priv := { sample_world.priv with receive_payloads := [] } } 0).1 = none ∧
    (_owr_media_session_get_receive_payload
      (run_scheduled (owr_media_session_add_receive_payload sample_world (some 1) (some 5)))
      (sample_world.payload_type 5)).1 = some 5 :=
  ⟨by decide, lookup_after_add sample_world 1 5 0 (by decide)⟩

/-- C4 (the code at the failing input). With payload 5 (type 96) as the only
registry entry, the lookup of type 97 returns NULL and yet takes a reference on
payload 5: its reference count goes from 1 to 2. -/
theorem lookup_miss_retains_last_entry :
    sample_world_with_payload.priv.receive_payloads = [5] ∧
    sample_world_with_payload.payload_type 5 = 96 ∧
    (_owr_media_session_get_receive_payload sample_world_with_payload 97).1 = none ∧
    sample_world_with_payload.ref_count 5 = 1 ∧
    (_owr_media_session_get_receive_payload sample_world_with_payload 97).2.ref_count 5 = 2 := by
  decide

/-- C5 (the code at the failing input). Setting media source 7 on a fresh
session stores it while its reference count stays 1, the value before the
public call, so the session holds no reference of its own; replacing it by
source 8 then releases a reference on 7 all the same and its count drops to 0.
The sibling path for the send payload does keep one: payload 5 goes from 1 to 2. -/
theorem set_send_source_keeps_no_reference :
    sample_world.ref_count 7 = 1 ∧
    (run_scheduled (owr_media_session_set_send_source sample_world (some 1)
      (some 7))).priv.send_source = some 7 ∧
    (run_scheduled (owr_media_session_set_send_source sample_world (some 1)
      (some 7))).ref_count 7 = 1 ∧
    (run_scheduled (owr_media_session_set_send_source
      (run_scheduled (owr_media_session_set_send_source sample_world (some 1) (some 7)))
      (some 1) (some 8))).ref_count 7 = 0 ∧
    (run_scheduled (owr_media_session_set_send_payload sample_world (some 1)
      (some 5))).ref_count 5 = 2 := by
  decide

/-- C6 (as stated, refuted). With no incoming key stored, the accessor returns
a buffer holding one zero byte: its length is 1, not 0. -/
theorem srtp_key_buffer_counterexample :
    sample_world.priv.incoming_srtp_key = none ∧
    _owr_media_session_get_srtp_key_buffer (fun _ => []) sample_world (some 1)
      (some "incoming-srtp-key") = some [0] ∧
    ¬ (∃ buffer, _owr_media_session_get_srtp_key_buffer (fun _ => []) sample_world (some 1)
      (some "incoming-srtp-key") = some buffer ∧ buffer.length = 0) := by
  decide

/-- C6 (amended). For either key role, when the stored base64 string is absent
or empty, the accessor returns, without failing, a buffer of length one that
holds a single zero byte. -/
theorem srtp_key_buffer_missing_key (g_base64_decode : String → List Nat) (w : World σ)
    (media_session : Ptr) (keyname : String)
    (hs : w.is_media_session media_session = true)
    (hk : keyname = "incoming-srtp-key" ∨ keyname = "outgoing-srtp-key")
    (hmissing : owr_media_session_get_property w keyname = none ∨
      owr_media_session_get_property w keyname = some "") :
    ∃ buffer, _owr_media_session_get_srtp_key_buffer g_base64_decode w (some media_session)
      (some keyname) = some buffer ∧ buffer.length = 1 ∧ buffer = [0] := by
  refine ⟨[0], ?_, rfl, rfl⟩
  unfold _owr_media_session_get_srtp_key_buffer
  rcases hmissing with hm | hm <;> simp [OWR_IS_MEDIA_SESSION, hs, hk, hm]

/-- Witness for C6: the outgoing key of a fresh session is absent. -/
theorem srtp_key_buffer_missing_key_witness :
    sample_world.is_media_session 1 = true ∧
    ("outgoing-srtp-key" = "incoming-srtp-key" ∨ "outgoing-srtp-key" = "outgoing-srtp-key") ∧
    (owr_media_session_get_property sample_world "outgoing-srtp-key" = none ∨
      owr_media_session_get_property sample_world "outgoing-srtp-key" = some "") ∧
    ∃ buffer, _owr_media_session_get_srtp_key_buffer (fun _ => [1, 2, 3]) sample_world (some 1)
      (some "outgoing-srtp-key") = some buffer ∧ buffer.length = 1 ∧ buffer = [0] :=
  ⟨by decide, by decide, by decide,
    srtp_key_buffer_missing_key (fun _ => [1, 2, 3]) sample_world 1 "outgoing-srtp-key"
      (by decide) (by decide) (by decide)⟩

/-- C7 (the code at the failing input). Adding payload 5 to a fresh session,
the task takes the writer lock, releases it, and only then inserts: the
insertion is not inside the writer section. -/
theorem add_inserts_after_writer_unlock :
    (run_scheduled (owr_media_session_add_receive_payload sample_world (some 1)
      (some 5))).trace = [Event.writer_lock, Event.writer_unlock, Event.ptr_array_add 5] ∧
    inserts_under_writer_lock false
      (run_scheduled (owr_media_session_add_receive_payload sample_world (some 1)
        (some 5))).trace = false := by
  decide

/-- C8. The lookup returns the entry with the lowest insertion index whose
payload type is `t` (every entry before it has another type), it returns NULL
exactly when the registry is empty or no entry has type `t`, for every `t`
(zero included), and it leaves the private state, so the registry content and
order, unchanged. -/
theorem lookup_returns_first_match (w : World σ) (t : Nat) :
    (_owr_media_session_get_receive_payload w t).1 =
        w.priv.receive_payloads.find? (fun q => decide (w.payload_type q = t)) ∧
    (∀ p, (_owr_media_session_get_receive_payload w t).1 = some p →
        w.payload_type p = t ∧
        ∃ before after, w.priv.receive_payloads = before ++ p :: after ∧
          ∀ q ∈ before, w.payload_type q ≠ t) ∧
    ((_owr_media_session_get_receive_payload w t).1 = none ↔
        (w.priv.receive_payloads = [] ∨ ∀ q ∈ w.priv.receive_payloads, w.payload_type q ≠ t)) ∧
    (_owr_media_session_get_receive_payload w t).2.priv = w.priv := by
  refine ⟨lookup_eq_find w t, ?_, ?_, lookup_priv w t⟩
  · intro p hp
    rw [lookup_eq_find, List.find?_eq_some] at hp
    obtain ⟨hpt, before, after, hsplit, hbefore⟩ := hp
    refine ⟨by simpa using hpt, before, after, hsplit, ?_⟩
    intro q hq
    simpa using hbefore q hq
  · rw [lookup_eq_find, List.find?_eq_none]
    constructor
    · intro h
      right
      intro q hq
      simpa using h q hq
    · rintro (h | h)
      · rw [h]; simp
      · intro q hq
        simpa using h q hq

/-- C9 (as stated, refuted). With closure 9 registered in the send-payload
slot, setting payload 5 and then payload 6 runs the callback twice, once per
task: first seeing send payload 5, then seeing send payload 6. -/
theorem send_payload_replace_counterexample :
    (run_scheduled (owr_media_session_set_send_payload
      (run_scheduled (owr_media_session_set_send_payload sample_world_with_slots
        (some 1) (some 5))) (some 1) (some 6))).trace =
      [Event.closure_invoke 9 1
          { sample_world_with_slots.priv with send_payload := some 5 },
        Event.closure_invoke 9 1
          { sample_world_with_slots.priv with send_payload := some 6 }] ∧
    callback_count (run_scheduled (owr_media_session_set_send_payload
      (run_scheduled (owr_media_session_set_send_payload sample_world_with_slots
        (some 1) (some 5))) (some 1) (some 6))).trace = 2 ∧
    callback_count (run_scheduled (owr_media_session_set_send_payload
      (run_scheduled (owr_media_session_set_send_payload sample_world_with_slots
        (some 1) (some 5))) (some 1) (some 6))).trace ≠ 1 := by
  decide

/-- C9 (amended). With a valid closure `c` registered in the send-payload slot
and two distinct payloads `P1`, `P2`, setting `P1` and then `P2` runs the
callback twice, once per task, with the session as argument: the first run
sees send payload `P1`, the second and last sees send payload `P2`; the final
send payload is `P2`; and `P1` is released: its reference count is back to its
value before the first call, one less when the session already held `P1` as
its send payload at that point. -/
theorem send_payload_replace_notifies_per_task (w : World σ) (media_session c P1 P2 : Ptr)
    (hslot : w.priv.on_send_payload = some c) (hvalid : w.closure_is_invalid c = false)
    (hne : P1 ≠ P2) :
    (run_scheduled (owr_media_session_set_send_payload
      (run_scheduled (owr_media_session_set_send_payload w (some media_session) (some P1)))
      (some media_session) (some P2))).trace =
      w.trace ++
        [Event.closure_invoke c media_session { w.priv with send_payload := some P1 },
          Event.closure_invoke c media_session { w.priv with send_payload := some P2 }] ∧
    (run_scheduled (owr_media_session_set_send_payload
      (run_scheduled (owr_media_session_set_send_payload w (some media_session) (some P1)))
      (some media_session) (some P2))).priv.send_payload = some P2 ∧
    (run_scheduled (owr_media_session_set_send_payload
      (run_scheduled (owr_media_session_set_send_payload w (some media_session) (some P1)))
      (some media_session) (some P2))).ref_count P1 =
      w.ref_count P1 - (if w.priv.send_payload = some P1 then 1 else 0) := by
  rw [set_send_payload_run, set_send_payload_run]
  refine ⟨?_, rfl, ?_⟩
  · simp [slot_events, hslot, hvalid]
  · simp only [if_true, if_neg hne]
    split_ifs <;> simp

/-- Witness for C9: closure 9, payloads 5 then 6. -/
theorem send_payload_replace_notifies_per_task_witness :
    sample_world_with_slots.priv.on_send_payload = some 9 ∧
    sample_world_with_slots.closure_is_invalid 9 = false ∧
    (5 : Ptr) ≠ 6 ∧
    (run_scheduled (owr_media_session_set_send_payload
      (run_scheduled (owr_media_session_set_send_payload sample_world_with_slots
        (some 1) (some 5))) (some 1) (some 6))).trace =
      sample_world_with_slots.trace ++
        [Event.closure_invoke 9 1 { sample_world_with_slots.priv with send_payload := some 5 },
          Event.closure_invoke 9 1 { sample_world_with_slots.priv with send_payload := some 6 }] ∧
    (run_scheduled (owr_media_session_set_send_payload
      (run_scheduled (owr_media_session_set_send_payload sample_world_with_slots
        (some 1) (some 5))) (some 1) (some 6))).priv.send_payload = some 6 ∧
    (run_scheduled (owr_media_session_set_send_payload
      (run_scheduled (owr_media_session_set_send_payload sample_world_with_slots
        (some 1) (some 5))) (some 1) (some 6))).ref_count 5 =
      sample_world_with_slots.ref_count 5 -
        (if sample_world_with_slots.priv.send_payload = some 5 then 1 else 0) :=
  ⟨by decide, by decide, by decide,
    send_payload_replace_notifies_per_task sample_world_with_slots 1 9 5 6
      (by decide) (by decide) (by decide)⟩

theorem set_send_source_rejected (w : World σ) (s src : Ptr)
    (h : w.is_media_session s = false ∨ w.is_media_source src = false) :
    run_scheduled (owr_media_session_set_send_source w (some s) (some src)) = w := by
  rcases h with h | h
  · simp [run_scheduled, owr_media_session_set_send_source, OWR_IS_MEDIA_SESSION, h]
  · cases hs : w.is_media_session s <;>
      simp [run_scheduled, owr_media_session_set_send_source, OWR_IS_MEDIA_SESSION,
        OWR_IS_MEDIA_SOURCE, h, hs]

theorem run_send_op_quiet (w0 w : World σ) (s : Ptr) (op : SendOp) (h : quiet_as w0 w) :
    quiet_as w0 (run_send_op w s op) := by
  obtain ⟨h1, h2, h3, h4, h5⟩ := h
  cases op with
  | setSendPayload p =>
    simp only [run_send_op]
    rw [set_send_payload_run]
    exact ⟨h1, h2, by simp [slot_events, h1, h3], h4, h5⟩
  | setSendSource src =>
    simp only [run_send_op]
    by_cases hv : w.is_media_session s = true ∧ w.is_media_source src = true
    · rw [set_send_source_run w s src hv.1 hv.2]
      exact ⟨h1, h2, by simp [slot_events, h2, h3], h4, h5⟩
    · rw [set_send_source_rejected]
      · exact ⟨h1, h2, h3, h4, h5⟩
      · by_cases hs : w.is_media_session s = true
        · right
          simpa [hs] using hv
        · left
          simpa using hs

theorem run_send_ops_quiet (w0 w : World σ) (s : Ptr) (ops : List SendOp) (h : quiet_as w0 w) :
    quiet_as w0 (run_send_ops w s ops) := by
  induction ops generalizing w with
  | nil => exact h
  | cons op rest ih =>
    simp only [run_send_ops, List.foldl_cons]
    exact ih _ (run_send_op_quiet w0 w s op h)

theorem clear_closures_quiet (clear_parent : σ → σ) (w : World σ) :
    quiet_as w (_owr_media_session_clear_closures clear_parent w) := by
  unfold _owr_media_session_clear_closures quiet_as
  cases h1 : w.priv.on_send_payload <;> cases h2 : w.priv.on_send_source <;>
    simp [h1, h2, g_closure_invalidate, g_closure_unref]

theorem clear_closures_of_empty_slots (clear_parent : σ → σ) (w : World σ)
    (h1 : w.priv.on_send_payload = none) (h2 : w.priv.on_send_source = none) :
    _owr_media_session_clear_closures clear_parent w = { w with parent := clear_parent w.parent } := by
  unfold _owr_media_session_clear_closures
  simp [h1, h2]

/-- C10. After `_owr_media_session_clear_closures` has run, along every later
sequence of setSendPayload / setSendSource operations each deferred task
stores the new value in `send_payload` / `send_source` and runs no callback
(the trace does not grow and both slots stay empty); and a second call of
`_owr_media_session_clear_closures` changes nothing. The parent class's
`_owr_session_clear_closures` is taken to be idempotent on the parent state. -/
theorem cleared_closures_never_fire (clear_parent : σ → σ) (w : World σ) (media_session : Ptr)
    (ops : List SendOp) (op : SendOp)
    (hparent : ∀ x, clear_parent (clear_parent x) = clear_parent x)
    (hs : w.is_media_session media_session = true)
    (hop : ∀ src, op = SendOp.setSendSource src → w.is_media_source src = true) :
    (run_send_op (run_send_ops (_owr_media_session_clear_closures clear_parent w)
      media_session ops) media_session op).trace = w.trace ∧
    callback_count (run_send_op (run_send_ops (_owr_media_session_clear_closures clear_parent w)
      media_session ops) media_session op).trace = callback_count w.trace ∧
    (match op with
      | SendOp.setSendPayload p =>
        (run_send_op (run_send_ops (_owr_media_session_clear_closures clear_parent w)
          media_session ops) media_session op).priv.send_payload = some p
      | SendOp.setSendSource src =>
        (run_send_op (run_send_ops (_owr_media_session_clear_closures clear_parent w)
          media_session ops) media_session op).priv.send_source = some src) ∧
    _owr_media_session_clear_closures clear_parent
      (_owr_media_session_clear_closures clear_parent w) =
      _owr_media_session_clear_closures clear_parent w := by
  have hq := run_send_ops_quiet w _ media_session ops (clear_closures_quiet clear_parent w)
  have hq2 := run_send_op_quiet w _ media_session op hq
  refine ⟨hq2.2.2.1, by rw [hq2.2.2.1], ?_, ?_⟩
  · cases op with
    | setSendPayload p =>
      simp only [run_send_op]
      rw [set_send_payload_run]
    | setSendSource src =>
      simp only [run_send_op]
      rw [set_send_source_run _ media_session src (by rw [hq.2.2.2.1]; exact hs)
        (by rw [hq.2.2.2.2]; exact hop src rfl)]
  · have hc := clear_closures_quiet clear_parent w
    rw [clear_closures_of_empty_slots clear_parent _ hc.1 hc.2.1]
    have hp : (_owr_media_session_clear_closures clear_parent w).parent =
        clear_parent w.parent := by
      unfold _owr_media_session_clear_closures
      cases h1 : w.priv.on_send_payload <;> cases h2 : w.priv.on_send_source <;>
        simp [h1, h2, g_closure_invalidate, g_closure_unref]
    generalize _owr_media_session_clear_closures clear_parent w = x at hp
    cases x
    simp only at hp
    simp [hp, hparent]

/-- Witness for C10: both slots registered, cleared, then three mutations. -/
theorem cleared_closures_never_fire_witness :
    (∀ x : Unit, id (id x) = id x) ∧
    sample_world_with_slots.is_media_session 1 = true ∧
    (∀ src, SendOp.setSendSource 8 = SendOp.setSendSource src →
      sample_world_with_slots.is_media_source src = true) ∧
    (run_send_op (run_send_ops (_owr_media_session_clear_closures id sample_world_with_slots)
      1 [SendOp.setSendPayload 5, SendOp.setSendSource 7]) 1 (SendOp.setSendSource 8)).trace =
      sample_world_with_slots.trace ∧
    callback_count (run_send_op (run_send_ops
      (_owr_media_session_clear_closures id sample_world_with_slots)
      1 [SendOp.setSendPayload 5, SendOp.setSendSource 7]) 1 (SendOp.setSendSource 8)).trace =
      callback_count sample_world_with_slots.trace ∧
    (run_send_op (run_send_ops (_owr_media_session_clear_closures id sample_world_with_slots)
      1 [SendOp.setSendPayload 5, SendOp.setSendSource 7]) 1
      (SendOp.setSendSource 8)).priv.send_source = some 8 ∧
    _owr_media_session_clear_closures id
      (_owr_media_session_clear_closures id sample_world_with_slots) =
      _owr_media_session_clear_closures id sample_world_with_slots :=
  ⟨fun _ => rfl, by decide, by intro src h; cases h; decide,
    cleared_closures_never_fire id sample_world_with_slots 1
      [SendOp.setSendPayload 5, SendOp.setSendSource 7] (SendOp.setSendSource 8)
      (fun _ => rfl) (by decide) (by intro src h; cases h; decide)⟩

theorem invocations_of_append (c : Ptr) (l1 l2 : List Event) :
    invocations_of c (l1 ++ l2) = invocations_of c l1 + invocations_of c l2 := by
  induction l1 with
  | nil => simp [invocations_of]
  | cons e rest ih =>
    cases e <;> simp [invocations_of, ih]
    omega

theorem register_twice_on_send_payload (w : World σ) (s A B : Ptr) :
    _owr_media_session_set_on_send_payload
      (_owr_media_session_set_on_send_payload w (some s) (some A)) (some s) (some B) =
      { w with priv := { w.priv with on_send_payload := some B } } := rfl

theorem register_twice_on_send_source (w : World σ) (s A B : Ptr)
    (hs : w.is_media_session s = true) :
    _owr_media_session_set_on_send_source
      (_owr_media_session_set_on_send_source w (some s) (some A)) (some s) (some B) =
      { w with priv := { w.priv with on_send_source := some B } } := by
  simp [_owr_media_session_set_on_send_source, OWR_IS_MEDIA_SESSION, hs]

/-- C11. On each of the two slots, after callback `A` and then callback `B`
(a different, valid closure) have been registered, the next corresponding
mutation (public call and its deferred task) appends exactly one callback run
to the trace, that of `B` with the session as argument, and none of `A`; and
a registration on one slot, whatever its arguments, leaves the other slot as
it was. -/
theorem single_slot_notification (w : World σ) (media_session A B payload source : Ptr)
    (any_session any_closure : Option Ptr)
    (hAB : A ≠ B) (hB : w.closure_is_invalid B = false)
    (hs : w.is_media_session media_session = true)
    (hsrc : w.is_media_source source = true) :
    ((run_scheduled (owr_media_session_set_send_payload
        (_owr_media_session_set_on_send_payload
          (_owr_media_session_set_on_send_payload w (some media_session) (some A))
          (some media_session) (some B))
        (some media_session) (some payload))).trace =
      w.trace ++ [Event.closure_invoke B media_session
        { w.priv with on_send_payload := some B, send_payload := some payload }] ∧
     invocations_of B (run_scheduled (owr_media_session_set_send_payload
        (_owr_media_session_set_on_send_payload
          (_owr_media_session_set_on_send_payload w (some media_session) (some A))
          (some media_session) (some B))
        (some media_session) (some payload))).trace = invocations_of B w.trace + 1 ∧
     invocations_of A (run_scheduled (owr_media_session_set_send_payload
        (_owr_media_session_set_on_send_payload
          (_owr_media_session_set_on_send_payload w (some media_session) (some A))
          (some media_session) (some B))
        (some media_session) (some payload))).trace = invocations_of A w.trace) ∧
    ((run_scheduled (owr_media_session_set_send_source
        (_owr_media_session_set_on_send_source
          (_owr_media_session_set_on_send_source w (some media_session) (some A))
          (some media_session) (some B))
        (some media_session) (some source))).trace =
      w.trace ++ [Event.closure_invoke B media_session
        { w.priv with on_send_source := some B, send_source := some source }] ∧
     invocations_of B (run_scheduled (owr_media_session_set_send_source
        (_owr_media_session_set_on_send_source
          (_owr_media_session_set_on_send_source w (some media_session) (some A))
          (some media_session) (some B))
        (some media_session) (some source))).trace = invocations_of B w.trace + 1 ∧
     invocations_of A (run_scheduled (owr_media_session_set_send_source
        (_owr_media_session_set_on_send_source
          (_owr_media_session_set_on_send_source w (some media_session) (some A))
          (some media_session) (some B))
        (some media_session) (some source))).trace = invocations_of A w.trace) ∧
    (_owr_media_session_set_on_send_payload w any_session any_closure).priv.on_send_source =
      w.priv.on_send_source ∧
    (_owr_media_session_set_on_send_source w any_session any_closure).priv.on_send_payload =
      w.priv.on_send_payload := by
  have hBA : B ≠ A := fun h => hAB h.symm
  refine ⟨?_, ?_, ?_, ?_⟩
  · rw [register_twice_on_send_payload, set_send_payload_run]
    simp [slot_events, hB, invocations_of_append, invocations_of, hBA]
  · have hrun := set_send_source_run { w with priv := { w.priv with on_send_source := some B } }
      media_session source hs hsrc
    rw [register_twice_on_send_source w media_session A B hs, hrun]
    simp [slot_events, hB, invocations_of_append, invocations_of, hBA]
  · unfold _owr_media_session_set_on_send_payload
    cases any_session <;> cases any_closure <;> rfl
  · unfold _owr_media_session_set_on_send_source
    split
    · rfl
    · cases any_closure <;> rfl

/-- Witness for C11: closures 9 then 10 registered on a fresh session, then
payload 5 or source 7 set. -/
theorem single_slot_notification_witness :
    (9 : Ptr) ≠ 10 ∧ sample_world.closure_is_invalid 10 = false ∧
    sample_world.is_media_session 1 = true ∧ sample_world.is_media_source 7 = true ∧
    ((run_scheduled (owr_media_session_set_send_payload
        (_owr_media_session_set_on_send_payload
          (_owr_media_session_set_on_send_payload sample_world (some 1) (some 9))
          (some 1) (some 10))
        (some 1) (some 5))).trace =
      sample_world.trace ++ [Event.closure_invoke 10 1
        { sample_world.priv with on_send_payload := some 10, send_payload := some 5 }] ∧
     invocations_of 10 (run_scheduled (owr_media_session_set_send_payload
        (_owr_media_session_set_on_send_payload
          (_owr_media_session_set_on_send_payload sample_world (some 1) (some 9))
          (some 1) (some 10))
        (some 1) (some 5))).trace = invocations_of 10 sample_world.trace + 1 ∧
     invocations_of 9 (run_scheduled (owr_media_session_set_send_payload
        (_owr_media_session_set_on_send_payload
          (_owr_media_session_set_on_send_payload sample_world (some 1) (some 9))
          (some 1) (some 10))
        (some 1) (some 5))).trace = invocations_of 9 sample_world.trace) ∧
    ((run_scheduled (owr_media_session_set_send_source
        (_owr_media_session_set_on_send_source
          (_owr_media_session_set_on_send_source sample_world (some 1) (some 9))
          (some 1) (some 10))
        (some 1) (some 7))).trace =
      sample_world.trace ++ [Event.closure_invoke 10 1
        { sample_world.priv with on_send_source := some 10, send_source := some 7 }] ∧
     invocations_of 10 (run_scheduled (owr_media_session_set_send_source
        (_owr_media_session_set_on_send_source
          (_owr_media_session_set_on_send_source sample_world (some 1) (some 9))
          (some 1) (some 10))
        (some 1) (some 7))).trace = invocations_of 10 sample_world.trace + 1 ∧
     invocations_of 9 (run_scheduled (owr_media_session_set_send_source
        (_owr_media_session_set_on_send_source
          (_owr_media_session_set_on_send_source sample_world (some 1) (some 9))
          (some 1) (some 10))
        (some 1) (some 7))).trace = invocations_of 9 sample_world.trace) ∧
    (_owr_media_session_set_on_send_payload sample_world (some 1) (some 9)).priv.on_send_source =
      sample_world.priv.on_send_source ∧
    (_owr_media_session_set_on_send_source sample_world (some 1) (some 9)).priv.on_send_payload =
      sample_world.priv.on_send_payload :=
  ⟨by decide, by decide, by decide, by decide,
    single_slot_notification sample_world 1 9 10 5 7 (some 1) (some 9)
      (by decide) (by decide) (by decide) (by decide)⟩

end OwrMediaSession
